import Mathlib

/-!  Verification of the Mergington High School activity-registry service
     (src/app.py): the in-memory activity registry, the signup and
     unregister handlers, the cookie-based session check, and the
     teacher-login flow, with theorems settling the specified behaviors.  -/

namespace Mergington

/-- An activity record, mirroring the dict values stored in the module-level
`activities` dict of app.py: description, schedule, capacity, and the ordered
participant email list. -/
structure Activity where
  description : String
  schedule : String
  max_participants : Nat
  participants : List String
deriving DecidableEq

/-- The registry: an insertion-ordered mapping from activity name to record,
mirroring the Python dict `activities` (unique keys, insertion order kept). -/
abbrev Registry := List (String × Activity)

/-- Error kinds raised by the handlers via HTTPException in app.py. -/
inductive ApiError
  | unauthenticated
  | notFound
  | alreadyRegistered
  | notRegistered
  | invalidCredentials
deriving DecidableEq

/-- HTTP status code attached to each error at its raise site in app.py. -/
def ApiError.statusCode : ApiError → Nat
  | .unauthenticated => 401
  | .notFound => 404
  | .alreadyRegistered => 400
  | .notRegistered => 400
  | .invalidCredentials => 401

/-- Dict lookup: `activities[name]`, with `none` exactly when
`name not in activities`. -/
def lookupActivity : Registry → String → Option Activity
  | [], _ => none
  | (n, a) :: rest, name => if n = name then some a else lookupActivity rest name

/-- In-place replacement of the record stored under `name`: the handlers
mutate the looked-up record (`activity["participants"].append(...)` /
`.remove(...)`), which under unique dict keys is replacing the entry for
`name` while every other entry stays put. -/
def updateActivity : Registry → String → Activity → Registry
  | [], _, _ => []
  | (n, a) :: rest, name, newAct =>
    if n = name then (n, newAct) :: updateActivity rest name newAct
    else (n, a) :: updateActivity rest name newAct

/-- Embeds `get_current_user` of app.py: reads the `mhsauth` session cookie
from the request. Python's `not session` is true both when the cookie is
absent (`None`) and when its value is the empty string, so only a present,
non-empty cookie yields a user; the value is returned as-is, with no check
against the credential store. -/
def get_current_user (cookie : Option String) : Option String :=
  match cookie with
  | none => none
  | some session => if session = "" then none else some session

/-- Embeds the `signup_for_activity` handler of app.py: authentication
check first, then activity existence, then duplicate membership, and
finally the append plus confirmation message. -/
def signup_for_activity (reg : Registry) (activity_name email : String)
    (cookie : Option String) : Except ApiError (Registry × String) :=
  match get_current_user cookie with
  | none => .error .unauthenticated
  | some _ =>
    match lookupActivity reg activity_name with
    | none => .error .notFound
    | some activity =>
      if email ∈ activity.participants then
        .error .alreadyRegistered
      else
        .ok (updateActivity reg activity_name
              { activity with participants := activity.participants ++ [email] },
          "Signed up " ++ email ++ " for " ++ activity_name)

/-- Embeds the `unregister_from_activity` handler of app.py: authentication
check first, then activity existence, then membership, and finally removal
of the first matching entry (Python `list.remove`, here `List.erase`). -/
def unregister_from_activity (reg : Registry) (activity_name email : String)
    (cookie : Option String) : Except ApiError (Registry × String) :=
  match get_current_user cookie with
  | none => .error .unauthenticated
  | some _ =>
    match lookupActivity reg activity_name with
    | none => .error .notFound
    | some activity =>
      if email ∉ activity.participants then
        .error .notRegistered
      else
        .ok (updateActivity reg activity_name
              { activity with participants := activity.participants.erase email },
          "Unregistered " ++ email ++ " from " ++ activity_name)

/-- The registry state after a signup request: the handler raises before any
mutation, so on error the registry is unchanged. -/
def signupRegistry (reg : Registry) (activity_name email : String)
    (cookie : Option String) : Registry :=
  match signup_for_activity reg activity_name email cookie with
  | .ok (r, _) => r
  | .error _ => reg

/-- The registry state after an unregister request: the handler raises
before any mutation, so on error the registry is unchanged. -/
def unregisterRegistry (reg : Registry) (activity_name email : String)
    (cookie : Option String) : Registry :=
  match unregister_from_activity reg activity_name email cookie with
  | .ok (r, _) => r
  | .error _ => reg

/-- A teacher credential record from teachers.json: username and salted
password hash. -/
structure Teacher where
  username : String
  password_hash : String
deriving DecidableEq

/-- Embeds `authenticate_teacher` of app.py: a linear scan of the freshly
loaded credential list, returning true on the first record whose username
matches and whose stored hash verifies the password. The external
`bcrypt.checkpw` salted-hash check is the oracle `checkpw password hash`. -/
def authenticate_teacher (checkpw : String → String → Bool)
    (teachers : List Teacher) (username password : String) : Bool :=
  match teachers with
  | [] => false
  | t :: rest =>
    if t.username == username && checkpw password t.password_hash then true
    else authenticate_teacher checkpw rest username password

/-- The observable result of a successful login: the value the `mhsauth`
cookie is set to, and the response payload fields. -/
structure LoginSuccess where
  cookie : String
  message : String
  user : String
deriving DecidableEq

/-- Embeds the `login` handler of app.py: on authentication success the
session cookie is set to the raw username and the payload echoes it; on
failure a 401 is raised and no cookie is set. -/
def login (checkpw : String → String → Bool) (teachers : List Teacher)
    (username password : String) : Except ApiError LoginSuccess :=
  if authenticate_teacher checkpw teachers username password then
    .ok ⟨username, "Login successful", username⟩
  else
    .error .invalidCredentials

/-- Embeds the `get_me` handler (`GET /me`) of app.py: returns the
cookie-derived user, or null when `get_current_user` yields none. -/
def get_me (cookie : Option String) : Option String :=
  get_current_user cookie

/-- The initial in-memory activity database of app.py: nine fixed
activities created at process start. -/
def activities : Registry :=
  [("Chess Club",
    { description := "Learn strategies and compete in chess tournaments"
      schedule := "Fridays, 3:30 PM - 5:00 PM"
      max_participants := 12
      participants := ["michael@mergington.edu", "daniel@mergington.edu"] }),
   ("Programming Class",
    { description := "Learn programming fundamentals and build software projects"
      schedule := "Tuesdays and Thursdays, 3:30 PM - 4:30 PM"
      max_participants := 20
      participants := ["emma@mergington.edu", "sophia@mergington.edu"] }),
   ("Gym Class",
    { description := "Physical education and sports activities"
      schedule := "Mondays, Wednesdays, Fridays, 2:00 PM - 3:00 PM"
      max_participants := 30
      participants := ["john@mergington.edu", "olivia@mergington.edu"] }),
   ("Soccer Team",
    { description := "Join the school soccer team and compete in matches"
      schedule := "Tuesdays and Thursdays, 4:00 PM - 5:30 PM"
      max_participants := 22
      participants := ["liam@mergington.edu", "noah@mergington.edu"] }),
   ("Basketball Team",
    { description := "Practice and play basketball with the school team"
      schedule := "Wednesdays and Fridays, 3:30 PM - 5:00 PM"
      max_participants := 15
      participants := ["ava@mergington.edu", "mia@mergington.edu"] }),
   ("Art Club",
    { description := "Explore your creativity through painting and drawing"
      schedule := "Thursdays, 3:30 PM - 5:00 PM"
      max_participants := 15
      participants := ["amelia@mergington.edu", "harper@mergington.edu"] }),
   ("Drama Club",
    { description := "Act, direct, and produce plays and performances"
      schedule := "Mondays and Wednesdays, 4:00 PM - 5:30 PM"
      max_participants := 20
      participants := ["ella@mergington.edu", "scarlett@mergington.edu"] }),
   ("Math Club",
    { description := "Solve challenging problems and participate in math competitions"
      schedule := "Tuesdays, 3:30 PM - 4:30 PM"
      max_participants := 10
      participants := ["james@mergington.edu", "benjamin@mergington.edu"] }),
   ("Debate Team",
    { description := "Develop public speaking and argumentation skills"
      schedule := "Fridays, 4:00 PM - 5:30 PM"
      max_participants := 12
      participants := ["charlotte@mergington.edu", "henry@mergington.edu"] })]

/-! ## Helper lemmas about lookup and update -/

theorem lookupActivity_updateActivity_ne (reg : Registry) (name n : String)
    (newAct : Activity) (h : n ≠ name) :
    lookupActivity (updateActivity reg name newAct) n = lookupActivity reg n := by
  induction reg with
  | nil => rfl
  | cons p rest ih =>
    obtain ⟨m, a⟩ := p
    by_cases hp : m = name
    · subst hp
      simpa [updateActivity, lookupActivity, Ne.symm h] using ih
    · by_cases hn : m = n
      · simp [updateActivity, lookupActivity, hp, hn, h]
      · simpa [updateActivity, lookupActivity, hp, hn] using ih

theorem lookupActivity_updateActivity_self (reg : Registry) (name : String)
    (newAct : Activity) :
    lookupActivity (updateActivity reg name newAct) name =
      (lookupActivity reg name).map (fun _ => newAct) := by
  induction reg with
  | nil => rfl
  | cons p rest ih =>
    obtain ⟨m, a⟩ := p
    by_cases hp : m = name
    · simp [updateActivity, lookupActivity, hp]
    · simpa [updateActivity, lookupActivity, hp] using ih

theorem keys_updateActivity (reg : Registry) (name : String) (newAct : Activity) :
    (updateActivity reg name newAct).map Prod.fst = reg.map Prod.fst := by
  induction reg with
  | nil => rfl
  | cons p rest ih =>
    obtain ⟨m, a⟩ := p
    by_cases hp : m = name
    · simpa [updateActivity, hp] using ih
    · simpa [updateActivity, hp] using ih

theorem updateActivity_updateActivity (reg : Registry) (name : String)
    (a b : Activity) :
    updateActivity (updateActivity reg name a) name b = updateActivity reg name b := by
  induction reg with
  | nil => rfl
  | cons p rest ih =>
    obtain ⟨m, c⟩ := p
    by_cases hp : m = name
    · simpa [updateActivity, hp] using ih
    · simpa [updateActivity, hp] using ih

theorem updateActivity_not_mem (reg : Registry) (name : String) (a : Activity)
    (h : name ∉ reg.map Prod.fst) :
    updateActivity reg name a = reg := by
  induction reg with
  | nil => rfl
  | cons p rest ih =>
    obtain ⟨m, c⟩ := p
    simp only [List.map_cons, List.mem_cons, not_or] at h
    have hm : m ≠ name := fun hp => h.1 hp.symm
    simp [updateActivity, hm, ih h.2]

theorem updateActivity_lookup_self (reg : Registry) (name : String) (act : Activity)
    (hnd : (reg.map Prod.fst).Nodup) (hl : lookupActivity reg name = some act) :
    updateActivity reg name act = reg := by
  induction reg with
  | nil => rfl
  | cons p rest ih =>
    obtain ⟨m, c⟩ := p
    simp only [List.map_cons, List.nodup_cons] at hnd
    by_cases hp : m = name
    · subst hp
      simp only [lookupActivity, if_pos rfl] at hl
      cases hl
      simp [updateActivity, updateActivity_not_mem rest m act hnd.1]
    · simp only [lookupActivity, if_neg hp] at hl
      simp [updateActivity, hp, ih hnd.2 hl]

theorem erase_append_singleton (l : List String) (e : String) (h : e ∉ l) :
    (l ++ [e]).erase e = l := by
  induction l with
  | nil => simp [List.erase]
  | cons x xs ih =>
    simp only [List.mem_cons, not_or] at h
    rw [List.cons_append, List.erase_cons]
    rw [if_neg (by simpa using fun hx => h.1 hx.symm)]
    rw [ih h.2]

/-! ## Claim theorems -/

/-- C1. For every activity in the registry and every email not in its
participant list, SignUp with a non-empty session cookie succeeds, appends
the email at the end preserving all prior entries (so it appears exactly
once afterwards), and returns a confirmation message containing the email
and the activity name. -/
theorem signup_appends (reg : Registry) (name email : String)
    (cookie : Option String) (u : String) (act : Activity)
    (hauth : get_current_user cookie = some u)
    (hact : lookupActivity reg name = some act)
    (hmem : email ∉ act.participants) :
    ∃ reg₂,
      signup_for_activity reg name email cookie =
        .ok (reg₂, "Signed up " ++ email ++ " for " ++ name) ∧
      lookupActivity reg₂ name =
        some { act with participants := act.participants ++ [email] } ∧
      (∀ act₂, lookupActivity reg₂ name = some act₂ →
        act₂.participants.count email = 1) := by
  refine ⟨updateActivity reg name
    { act with participants := act.participants ++ [email] }, ?_, ?_, ?_⟩
  · simp [signup_for_activity, hauth, hact, hmem]
  · rw [lookupActivity_updateActivity_self, hact]
    rfl
  · intro act₂ h₂
    rw [lookupActivity_updateActivity_self, hact] at h₂
    simp only [Option.map_some'] at h₂
    cases h₂
    simp [List.count_append, List.count_eq_zero_of_not_mem hmem]

/-- Closed instance of `signup_appends`: from the initial state,
SignUp("Chess Club", "new@mergington.edu") with a non-empty cookie turns
the Chess Club participant list into the original two entries followed by
the new email. -/
theorem signup_appends_witness :
    ∃ reg₂,
      signup_for_activity activities "Chess Club" "new@mergington.edu"
          (some "teacher1") =
        .ok (reg₂, "Signed up " ++ "new@mergington.edu" ++ " for " ++ "Chess Club") ∧
      lookupActivity reg₂ "Chess Club" =
        some { description := "Learn strategies and compete in chess tournaments"
               schedule := "Fridays, 3:30 PM - 5:00 PM"
               max_participants := 12
               participants := ["michael@mergington.edu", "daniel@mergington.edu",
                 "new@mergington.edu"] } ∧
      (∀ act₂, lookupActivity reg₂ "Chess Club" = some act₂ →
        act₂.participants.count "new@mergington.edu" = 1) := by
  have h := signup_appends activities "Chess Club" "new@mergington.edu"
    (some "teacher1") "teacher1"
    { description := "Learn strategies and compete in chess tournaments"
      schedule := "Fridays, 3:30 PM - 5:00 PM"
      max_participants := 12
      participants := ["michael@mergington.edu", "daniel@mergington.edu"] }
    (by decide) (by decide) (by decide)
  exact h

/-- C2. Authentication for SignUp and Unregister checks only that the
session cookie exists and is non-empty: any non-empty cookie value, whether
or not it names a real teacher, is treated as authenticated (the handlers
never raise Unauthenticated with it), and WhoAmI echoes the value back as
the identified user, null when the cookie is absent; `get_current_user`
consults no credential store at all. -/
theorem auth_accepts_any_nonempty_cookie (s : String) (hs : s ≠ "") :
    get_current_user (some s) = some s ∧
    get_me (some s) = some s ∧
    get_me none = none ∧
    (∀ reg name email,
      signup_for_activity reg name email (some s) ≠ .error .unauthenticated) ∧
    (∀ reg name email,
      unregister_from_activity reg name email (some s) ≠ .error .unauthenticated) := by
  have hg : get_current_user (some s) = some s := by
    simp [get_current_user, hs]
  refine ⟨hg, hg, rfl, ?_, ?_⟩
  · intro reg name email
    simp only [signup_for_activity, hg]
    cases lookupActivity reg name with
    | none => simp
    | some act =>
      by_cases hm : email ∈ act.participants <;> simp [hm]
  · intro reg name email
    simp only [unregister_from_activity, hg]
    cases lookupActivity reg name with
    | none => simp
    | some act =>
      by_cases hm : email ∈ act.participants <;> simp [hm]

/-- Closed instance of `auth_accepts_any_nonempty_cookie`: the forged
cookie value "forged", which names no teacher, is accepted as
authenticated and echoed by WhoAmI. -/
theorem auth_accepts_any_nonempty_cookie_witness :
    get_current_user (some "forged") = some "forged" ∧
    get_me (some "forged") = some "forged" ∧
    get_me none = none ∧
    signup_for_activity activities "Chess Club" "x@mergington.edu"
      (some "forged") ≠ .error .unauthenticated := by
  obtain ⟨h1, h2, h3, h4, _⟩ :=
    auth_accepts_any_nonempty_cookie "forged" (by decide)
  exact ⟨h1, h2, h3, h4 activities "Chess Club" "x@mergington.edu"⟩

/-- C3. SignUp and Unregister invoked with the cookie absent or empty fail
with Unauthenticated (HTTP 401) for every activity name and email, valid
or not, and leave the registry unchanged: the authentication check is
decided before the activity-existence and membership checks. -/
theorem unauthenticated_without_cookie (reg : Registry) (name email : String)
    (cookie : Option String) (hc : cookie = none ∨ cookie = some "") :
    signup_for_activity reg name email cookie = .error .unauthenticated ∧
    unregister_from_activity reg name email cookie = .error .unauthenticated ∧
    ApiError.unauthenticated.statusCode = 401 ∧
    signupRegistry reg name email cookie = reg ∧
    unregisterRegistry reg name email cookie = reg := by
  have hg : get_current_user cookie = none := by
    rcases hc with h | h <;> simp [h, get_current_user]
  have h1 : signup_for_activity reg name email cookie = .error .unauthenticated := by
    simp [signup_for_activity, hg]
  have h2 : unregister_from_activity reg name email cookie =
      .error .unauthenticated := by
    simp [unregister_from_activity, hg]
  exact ⟨h1, h2, rfl, by simp [signupRegistry, h1], by simp [unregisterRegistry, h2]⟩

/-- Closed instance of `unauthenticated_without_cookie`: an absent cookie
fails signup even on an unknown activity, and an empty cookie fails
unregister even for a registered participant. -/
theorem unauthenticated_without_cookie_witness :
    signup_for_activity activities "No Such Club" "x@mergington.edu" none =
      .error .unauthenticated ∧
    unregister_from_activity activities "Chess Club" "michael@mergington.edu"
      (some "") = .error .unauthenticated := by
  exact ⟨(unauthenticated_without_cookie activities "No Such Club"
      "x@mergington.edu" none (Or.inl rfl)).1,
    (unauthenticated_without_cookie activities "Chess Club"
      "michael@mergington.edu" (some "") (Or.inr rfl)).2.1⟩

/-- C4. Capacity is not enforced: when an activity's participant list is
already at or above `max_participants`, SignUp with a non-empty session
cookie of a fresh email still succeeds and appends it, so the list grows
strictly beyond the capacity. -/
theorem no_capacity_check (reg : Registry) (name email : String)
    (cookie : Option String) (u : String) (act : Activity)
    (hauth : get_current_user cookie = some u)
    (hact : lookupActivity reg name = some act)
    (hmem : email ∉ act.participants)
    (hfull : act.max_participants ≤ act.participants.length) :
    ∃ reg₂ msg, signup_for_activity reg name email cookie = .ok (reg₂, msg) ∧
      ∀ act₂, lookupActivity reg₂ name = some act₂ →
        act₂.participants = act.participants ++ [email] ∧
        act₂.max_participants < act₂.participants.length := by
  refine ⟨updateActivity reg name
      { act with participants := act.participants ++ [email] },
    "Signed up " ++ email ++ " for " ++ name, ?_, ?_⟩
  · simp [signup_for_activity, hauth, hact, hmem]
  · intro act₂ h₂
    rw [lookupActivity_updateActivity_self, hact] at h₂
    simp only [Option.map_some'] at h₂
    cases h₂
    refine ⟨rfl, ?_⟩
    simp only [List.length_append, List.length_cons, List.length_nil]
    omega

/-- Closed instance of `no_capacity_check`: a two-slot activity already
holding two participants still accepts a third signup. -/
theorem no_capacity_check_witness :
    ∃ reg₂ msg,
      signup_for_activity
        [("Full Club", ⟨"d", "s", 2, ["a@mergington.edu", "b@mergington.edu"]⟩)]
        "Full Club" "c@mergington.edu" (some "t") = .ok (reg₂, msg) ∧
      ∀ act₂, lookupActivity reg₂ "Full Club" = some act₂ →
        act₂.participants =
          ["a@mergington.edu", "b@mergington.edu"] ++ ["c@mergington.edu"] ∧
        act₂.max_participants < act₂.participants.length :=
  no_capacity_check
    [("Full Club", ⟨"d", "s", 2, ["a@mergington.edu", "b@mergington.edu"]⟩)]
    "Full Club" "c@mergington.edu" (some "t") "t"
    ⟨"d", "s", 2, ["a@mergington.edu", "b@mergington.edu"]⟩
    (by decide) (by decide) (by decide) (by decide)

/-- C5. SignUp of an email already in the activity's participant list,
with a non-empty session cookie, fails with AlreadyRegistered (HTTP 400)
and the registry — in particular that participant list — is unchanged. -/
theorem signup_already_registered (reg : Registry) (name email : String)
    (cookie : Option String) (u : String) (act : Activity)
    (hauth : get_current_user cookie = some u)
    (hact : lookupActivity reg name = some act)
    (hmem : email ∈ act.participants) :
    signup_for_activity reg name email cookie = .error .alreadyRegistered ∧
    ApiError.alreadyRegistered.statusCode = 400 ∧
    signupRegistry reg name email cookie = reg := by
  have h1 : signup_for_activity reg name email cookie =
      .error .alreadyRegistered := by
    simp [signup_for_activity, hauth, hact, hmem]
  exact ⟨h1, rfl, by simp [signupRegistry, h1]⟩

/-- Closed instance of `signup_already_registered`: signing up
michael@mergington.edu to Chess Club again fails with AlreadyRegistered
and leaves the registry as it was. -/
theorem signup_already_registered_witness :
    signup_for_activity activities "Chess Club" "michael@mergington.edu"
      (some "t") = .error .alreadyRegistered ∧
    ApiError.alreadyRegistered.statusCode = 400 ∧
    signupRegistry activities "Chess Club" "michael@mergington.edu"
      (some "t") = activities :=
  signup_already_registered activities "Chess Club" "michael@mergington.edu"
    (some "t") "t"
    { description := "Learn strategies and compete in chess tournaments"
      schedule := "Fridays, 3:30 PM - 5:00 PM"
      max_participants := 12
      participants := ["michael@mergington.edu", "daniel@mergington.edu"] }
    (by decide) (by decide) (by decide)

/-- C6. Unregister of an email absent from the activity's participant
list, with a non-empty session cookie, fails with NotRegistered (HTTP 400)
and the registry — in particular that participant list — is unchanged. -/
theorem unregister_not_registered (reg : Registry) (name email : String)
    (cookie : Option String) (u : String) (act : Activity)
    (hauth : get_current_user cookie = some u)
    (hact : lookupActivity reg name = some act)
    (hmem : email ∉ act.participants) :
    unregister_from_activity reg name email cookie = .error .notRegistered ∧
    ApiError.notRegistered.statusCode = 400 ∧
    unregisterRegistry reg name email cookie = reg := by
  have h1 : unregister_from_activity reg name email cookie =
      .error .notRegistered := by
    simp [unregister_from_activity, hauth, hact, hmem]
  exact ⟨h1, rfl, by simp [unregisterRegistry, h1]⟩

/-- Closed instance of `unregister_not_registered`: unregistering an email
never signed up to Chess Club fails with NotRegistered and leaves the
registry as it was. -/
theorem unregister_not_registered_witness :
    unregister_from_activity activities "Chess Club" "ghost@mergington.edu"
      (some "t") = .error .notRegistered ∧
    ApiError.notRegistered.statusCode = 400 ∧
    unregisterRegistry activities "Chess Club" "ghost@mergington.edu"
      (some "t") = activities :=
  unregister_not_registered activities "Chess Club" "ghost@mergington.edu"
    (some "t") "t"
    { description := "Learn strategies and compete in chess tournaments"
      schedule := "Fridays, 3:30 PM - 5:00 PM"
      max_participants := 12
      participants := ["michael@mergington.edu", "daniel@mergington.edu"] }
    (by decide) (by decide) (by decide)

/-- C7. SignUp and Unregister on a name that is not a key of the registry,
with a non-empty session cookie, fail with NotFound (HTTP 404) for every
email, and the registry is unchanged. -/
theorem unknown_activity_not_found (reg : Registry) (name email : String)
    (cookie : Option String) (u : String)
    (hauth : get_current_user cookie = some u)
    (hact : lookupActivity reg name = none) :
    signup_for_activity reg name email cookie = .error .notFound ∧
    unregister_from_activity reg name email cookie = .error .notFound ∧
    ApiError.notFound.statusCode = 404 ∧
    signupRegistry reg name email cookie = reg ∧
    unregisterRegistry reg name email cookie = reg := by
  have h1 : signup_for_activity reg name email cookie = .error .notFound := by
    simp [signup_for_activity, hauth, hact]
  have h2 : unregister_from_activity reg name email cookie = .error .notFound := by
    simp [unregister_from_activity, hauth, hact]
  exact ⟨h1, h2, rfl, by simp [signupRegistry, h1], by simp [unregisterRegistry, h2]⟩

/-- Closed instance of `unknown_activity_not_found`: the name
"Knitting Club" is not in the registry, so signup and unregister both
return NotFound and change nothing. -/
theorem unknown_activity_not_found_witness :
    signup_for_activity activities "Knitting Club" "x@mergington.edu"
      (some "t") = .error .notFound ∧
    unregister_from_activity activities "Knitting Club" "x@mergington.edu"
      (some "t") = .error .notFound ∧
    ApiError.notFound.statusCode = 404 ∧
    signupRegistry activities "Knitting Club" "x@mergington.edu"
      (some "t") = activities ∧
    unregisterRegistry activities "Knitting Club" "x@mergington.edu"
      (some "t") = activities :=
  unknown_activity_not_found activities "Knitting Club" "x@mergington.edu"
    (some "t") "t" (by decide) (by decide)

theorem authenticate_teacher_iff (checkpw : String → String → Bool)
    (teachers : List Teacher) (username password : String) :
    authenticate_teacher checkpw teachers username password = true ↔
      ∃ t ∈ teachers, t.username = username ∧
        checkpw password t.password_hash = true := by
  induction teachers with
  | nil => simp [authenticate_teacher]
  | cons t rest ih =>
    by_cases h : (t.username == username && checkpw password t.password_hash) = true
    · rw [Bool.and_eq_true, beq_iff_eq] at h
      simp only [authenticate_teacher, List.mem_cons]
      rw [if_pos (by rw [Bool.and_eq_true, beq_iff_eq]; exact h)]
      simp only [true_iff]
      exact ⟨t, Or.inl rfl, h.1, h.2⟩
    · simp only [authenticate_teacher, List.mem_cons]
      rw [if_neg h, ih]
      constructor
      · rintro ⟨s, hs, h1, h2⟩
        exact ⟨s, Or.inr hs, h1, h2⟩
      · rintro ⟨s, hs | hs, h1, h2⟩
        · exfalso
          apply h
          rw [Bool.and_eq_true, beq_iff_eq]
          subst hs
          exact ⟨h1, h2⟩
        · exact ⟨s, hs, h1, h2⟩

/-- C8. Login succeeds exactly when some record in the credential list
matches the username and its stored hash verifies the password under the
salted-hash check (the external bcrypt.checkpw, the oracle `checkpw`); on
success the session cookie is set to the raw username and the payload
echoes it, otherwise login fails with InvalidCredentials (HTTP 401) and no
cookie is set. -/
theorem login_iff_credential_match (checkpw : String → String → Bool)
    (teachers : List Teacher) (username password : String) :
    (login checkpw teachers username password =
        .ok ⟨username, "Login successful", username⟩ ↔
      ∃ t ∈ teachers, t.username = username ∧
        checkpw password t.password_hash = true) ∧
    (login checkpw teachers username password = .error .invalidCredentials ↔
      ¬ ∃ t ∈ teachers, t.username = username ∧
          checkpw password t.password_hash = true) ∧
    ApiError.invalidCredentials.statusCode = 401 := by
  by_cases hauth : authenticate_teacher checkpw teachers username password = true
  · have hex := (authenticate_teacher_iff checkpw teachers username password).mp hauth
    refine ⟨?_, ?_, rfl⟩
    · simp [login, hauth, hex]
    · simp [login, hauth, hex]
  · have hnex : ¬ ∃ t ∈ teachers, t.username = username ∧
        checkpw password t.password_hash = true := fun hex =>
      hauth ((authenticate_teacher_iff checkpw teachers username password).mpr hex)
    refine ⟨?_, ?_, rfl⟩
    · simp only [login, if_neg hauth]
      simp [hnex]
    · simp only [login, if_neg hauth]
      simp [hnex]

/-- Closed instance of `login_iff_credential_match`: with a one-record
credential list and a hash oracle accepting exactly password ++ "!", the
right password logs in with the cookie set to the username, and a wrong
password yields InvalidCredentials. -/
theorem login_iff_credential_match_witness :
    login (fun p h => h == p ++ "!") [⟨"alice", "pw1!"⟩] "alice" "pw1" =
      .ok ⟨"alice", "Login successful", "alice"⟩ ∧
    login (fun p h => h == p ++ "!") [⟨"alice", "pw1!"⟩] "alice" "wrong" =
      .error .invalidCredentials := by
  refine ⟨(login_iff_credential_match (fun p h => h == p ++ "!")
      [⟨"alice", "pw1!"⟩] "alice" "pw1").1.mpr
      ⟨⟨"alice", "pw1!"⟩, by decide, rfl, by decide⟩,
    (login_iff_credential_match (fun p h => h == p ++ "!")
      [⟨"alice", "pw1!"⟩] "alice" "wrong").2.1.mpr ?_⟩
  rintro ⟨t, ht, h1, h2⟩
  simp only [List.mem_singleton] at ht
  subst ht
  exact absurd h2 (by decide)

/-- Case analysis for the registry after a signup request: either nothing
changed, or exactly the named activity had the email appended. -/
theorem signupRegistry_cases (reg : Registry) (name email : String)
    (cookie : Option String) :
    signupRegistry reg name email cookie = reg ∨
    ∃ act, lookupActivity reg name = some act ∧
      signupRegistry reg name email cookie =
        updateActivity reg name
          { act with participants := act.participants ++ [email] } := by
  cases hg : get_current_user cookie with
  | none => exact Or.inl (by simp [signupRegistry, signup_for_activity, hg])
  | some u =>
    cases hl : lookupActivity reg name with
    | none => exact Or.inl (by simp [signupRegistry, signup_for_activity, hg, hl])
    | some act =>
      by_cases hm : email ∈ act.participants
      · exact Or.inl (by simp [signupRegistry, signup_for_activity, hg, hl, hm])
      · refine Or.inr ⟨act, rfl, ?_⟩
        simp [signupRegistry, signup_for_activity, hg, hl, hm]

/-- Case analysis for the registry after an unregister request: either
nothing changed, or exactly the named activity had the first occurrence of
the email erased. -/
theorem unregisterRegistry_cases (reg : Registry) (name email : String)
    (cookie : Option String) :
    unregisterRegistry reg name email cookie = reg ∨
    ∃ act, lookupActivity reg name = some act ∧
      unregisterRegistry reg name email cookie =
        updateActivity reg name
          { act with participants := act.participants.erase email } := by
  cases hg : get_current_user cookie with
  | none => exact Or.inl (by simp [unregisterRegistry, unregister_from_activity, hg])
  | some u =>
    cases hl : lookupActivity reg name with
    | none =>
      exact Or.inl (by simp [unregisterRegistry, unregister_from_activity, hg, hl])
    | some act =>
      by_cases hm : email ∈ act.participants
      · refine Or.inr ⟨act, rfl, ?_⟩
        simp [unregisterRegistry, unregister_from_activity, hg, hl, hm]
      · exact Or.inl
          (by simp [unregisterRegistry, unregister_from_activity, hg, hl, hm])

theorem frame_of_update (reg : Registry) (name : String) (act newAct : Activity)
    (hl : lookupActivity reg name = some act)
    (hd : newAct.description = act.description)
    (hs : newAct.schedule = act.schedule)
    (hm : newAct.max_participants = act.max_participants) :
    (updateActivity reg name newAct).map Prod.fst = reg.map Prod.fst ∧
    (∀ n, n ≠ name →
      lookupActivity (updateActivity reg name newAct) n = lookupActivity reg n) ∧
    (∀ n, (lookupActivity (updateActivity reg name newAct) n).map
        (fun a => (a.description, a.schedule, a.max_participants)) =
      (lookupActivity reg n).map
        (fun a => (a.description, a.schedule, a.max_participants))) := by
  refine ⟨keys_updateActivity reg name newAct,
    fun n hn => lookupActivity_updateActivity_ne reg name n newAct hn, fun n => ?_⟩
  by_cases hn : n = name
  · subst hn
    rw [lookupActivity_updateActivity_self, hl]
    simp [hd, hs, hm]
  · rw [lookupActivity_updateActivity_ne reg name n newAct hn]

/-- C9. Frame property: a SignUp or Unregister call changes at most the
named activity's participant list — the key set of the registry (the nine
fixed activities of the initial state, none added or deleted), every
activity's description, schedule and max_participants, and the participant
lists of all other activities are untouched. -/
theorem frame_property (reg : Registry) (name email : String)
    (cookie : Option String) :
    (signupRegistry reg name email cookie).map Prod.fst = reg.map Prod.fst ∧
    (unregisterRegistry reg name email cookie).map Prod.fst = reg.map Prod.fst ∧
    (∀ n, n ≠ name →
      lookupActivity (signupRegistry reg name email cookie) n =
          lookupActivity reg n ∧
      lookupActivity (unregisterRegistry reg name email cookie) n =
          lookupActivity reg n) ∧
    (∀ n,
      (lookupActivity (signupRegistry reg name email cookie) n).map
          (fun a => (a.description, a.schedule, a.max_participants)) =
        (lookupActivity reg n).map
          (fun a => (a.description, a.schedule, a.max_participants)) ∧
      (lookupActivity (unregisterRegistry reg name email cookie) n).map
          (fun a => (a.description, a.schedule, a.max_participants)) =
        (lookupActivity reg n).map
          (fun a => (a.description, a.schedule, a.max_participants))) ∧
    activities.map Prod.fst = ["Chess Club", "Programming Class", "Gym Class",
      "Soccer Team", "Basketball Team", "Art Club", "Drama Club", "Math Club",
      "Debate Team"] := by
  have hsign : (signupRegistry reg name email cookie).map Prod.fst =
        reg.map Prod.fst ∧
      (∀ n, n ≠ name → lookupActivity (signupRegistry reg name email cookie) n =
        lookupActivity reg n) ∧
      (∀ n, (lookupActivity (signupRegistry reg name email cookie) n).map
          (fun a => (a.description, a.schedule, a.max_participants)) =
        (lookupActivity reg n).map
          (fun a => (a.description, a.schedule, a.max_participants))) := by
    rcases signupRegistry_cases reg name email cookie with h | ⟨act, hl, h⟩
    · rw [h]
      exact ⟨rfl, fun n _ => rfl, fun n => rfl⟩
    · rw [h]
      exact frame_of_update reg name act _ hl rfl rfl rfl
  have hunreg : (unregisterRegistry reg name email cookie).map Prod.fst =
        reg.map Prod.fst ∧
      (∀ n, n ≠ name →
        lookupActivity (unregisterRegistry reg name email cookie) n =
          lookupActivity reg n) ∧
      (∀ n, (lookupActivity (unregisterRegistry reg name email cookie) n).map
          (fun a => (a.description, a.schedule, a.max_participants)) =
        (lookupActivity reg n).map
          (fun a => (a.description, a.schedule, a.max_participants))) := by
    rcases unregisterRegistry_cases reg name email cookie with h | ⟨act, hl, h⟩
    · rw [h]
      exact ⟨rfl, fun n _ => rfl, fun n => rfl⟩
    · rw [h]
      exact frame_of_update reg name act _ hl rfl rfl rfl
  exact ⟨hsign.1, hunreg.1,
    fun n hn => ⟨hsign.2.1 n hn, hunreg.2.1 n hn⟩,
    fun n => ⟨hsign.2.2 n, hunreg.2.2 n⟩, by decide⟩

/-- Closed instance of `frame_property`: signing someone up to Chess Club
leaves the key list, the Math Club record, and Chess Club's
description/schedule/capacity untouched. -/
theorem frame_property_witness :
    (signupRegistry activities "Chess Club" "new@mergington.edu"
      (some "t")).map Prod.fst = activities.map Prod.fst ∧
    lookupActivity (signupRegistry activities "Chess Club" "new@mergington.edu"
        (some "t")) "Math Club" = lookupActivity activities "Math Club" ∧
    (lookupActivity (signupRegistry activities "Chess Club"
        "new@mergington.edu" (some "t")) "Chess Club").map
        (fun a => (a.description, a.schedule, a.max_participants)) =
      (lookupActivity activities "Chess Club").map
        (fun a => (a.description, a.schedule, a.max_participants)) := by
  obtain ⟨h1, _, h3, h4, _⟩ :=
    frame_property activities "Chess Club" "new@mergington.edu" (some "t")
  exact ⟨h1, (h3 "Math Club" (by decide)).1, (h4 "Chess Club").1⟩

/-- C10. Round trip: a successful SignUp of a fresh email with a non-empty
session cookie followed by Unregister of the same email restores the named
activity's participant list — and with it the whole registry — to exactly
its prior value (registry keys are unique, as in a Python dict). -/
theorem signup_unregister_round_trip (reg : Registry) (name email : String)
    (cookie : Option String) (u : String) (act : Activity)
    (hnd : (reg.map Prod.fst).Nodup)
    (hauth : get_current_user cookie = some u)
    (hact : lookupActivity reg name = some act)
    (hmem : email ∉ act.participants) :
    ∃ reg₁ m₁ m₂,
      signup_for_activity reg name email cookie = .ok (reg₁, m₁) ∧
      unregister_from_activity reg₁ name email cookie = .ok (reg, m₂) := by
  have h1 : signup_for_activity reg name email cookie =
      .ok (updateActivity reg name
          { act with participants := act.participants ++ [email] },
        "Signed up " ++ email ++ " for " ++ name) := by
    simp [signup_for_activity, hauth, hact, hmem]
  have hl1 : lookupActivity (updateActivity reg name
        { act with participants := act.participants ++ [email] }) name =
      some { act with participants := act.participants ++ [email] } := by
    rw [lookupActivity_updateActivity_self, hact]
    rfl
  have hmem1 : email ∈ ({ act with
      participants := act.participants ++ [email] } : Activity).participants := by
    simp
  have herase : (act.participants ++ [email]).erase email = act.participants :=
    erase_append_singleton act.participants email hmem
  have h2 : unregister_from_activity
      (updateActivity reg name
        { act with participants := act.participants ++ [email] })
      name email cookie =
      .ok (updateActivity
          (updateActivity reg name
            { act with participants := act.participants ++ [email] })
          name { act with participants := (act.participants ++ [email]).erase email },
        "Unregistered " ++ email ++ " from " ++ name) := by
    simp [unregister_from_activity, hauth, hl1, hmem1]
  have hback : updateActivity
      (updateActivity reg name
        { act with participants := act.participants ++ [email] })
      name { act with
        participants := (act.participants ++ [email]).erase email } = reg := by
    rw [updateActivity_updateActivity, herase]
    exact updateActivity_lookup_self reg name act hnd hact
  refine ⟨_, _, "Unregistered " ++ email ++ " from " ++ name, h1, ?_⟩
  rw [h2, hback]

/-- Closed instance of `signup_unregister_round_trip`: signing
new@mergington.edu up to Chess Club and unregistering them again restores
the initial registry exactly. -/
theorem signup_unregister_round_trip_witness :
    ∃ reg₁ m₁ m₂,
      signup_for_activity activities "Chess Club" "new@mergington.edu"
        (some "t") = .ok (reg₁, m₁) ∧
      unregister_from_activity reg₁ "Chess Club" "new@mergington.edu"
        (some "t") = .ok (activities, m₂) :=
  signup_unregister_round_trip activities "Chess Club" "new@mergington.edu"
    (some "t") "t"
    { description := "Learn strategies and compete in chess tournaments"
      schedule := "Fridays, 3:30 PM - 5:00 PM"
      max_participants := 12
      participants := ["michael@mergington.edu", "daniel@mergington.edu"] }
    (by decide) (by decide) (by decide) (by decide)

end Mergington
